import Mathlib

/-!
# Verification of the `build.py` build driver

A shallow embedding of `src/build.py`, a small Python build driver that

1. lists the `shaders` directory once (`os.listdir("shaders")`, line 7),
2. for every entry containing a dot that splits on `"."` into exactly three
   segments, invokes `glslangValidator -V shaders/<entry> -o
   shaders/bin/<seg0>.<seg1>.spv` (lines 27-39),
3. finally invokes `odin run spark` with `-o:speed` when `sys.argv[1]`
   equals `"release"` and with `-o:none -debug` otherwise (lines 41-47).

Python strings are embedded as Lean `String`s; the string primitives the
script relies on (`in`, `str.split`, `str.join`, `os.path.join`) are given
executable Lean counterparts operating on `String.data`.  External process
invocations are embedded as the ordered list of argument vectors handed to
`subprocess.run`, together with an environment function assigning to every
command its outcome (an exit code, or the `FileNotFoundError` that Python's
`subprocess.run` raises when the executable does not exist).
-/

/-- Embedding of Python's `str.split(sep)` for a single-character separator,
on the character list of the string: splits at every occurrence of `sep`,
keeping empty segments, and yields `[l]` when `sep` does not occur
(in particular `[[]]` on the empty string, as in Python). -/
def splitOnChar (sep : Char) : List Char → List (List Char)
  | [] => [[]]
  | c :: cs =>
    if c = sep then [] :: splitOnChar sep cs
    else
      match splitOnChar sep cs with
      | [] => [[c]]
      | t :: ts => (c :: t) :: ts

/-- `entry.split(".")` from line 31 of `build.py`, as a `String` operation. -/
def pySplitDot (s : String) : List String :=
  (splitOnChar '.' s.data).map String.mk

/-- Embedding of `os.path.join(a, b)` with POSIX separators (the layout the
script and its documentation assume): an absolute second component replaces
the first, otherwise the components are joined with `/` (no duplicate
separator when `a` already ends in one or is empty). -/
def pathJoin (a b : String) : String :=
  if b.data.head? = some '/' then b
  else if a = "" ∨ a.data.getLast? = some '/' then a ++ b
  else a ++ "/" ++ b

/-- Outcome of one `subprocess.run(cmd)` call: the child process terminated
with an exit code, or the executable was absent, in which case Python's
`subprocess.run` raises `FileNotFoundError` instead of returning. -/
inductive ExecOutcome where
  | exited (code : Int)
  | notFound
deriving DecidableEq, Repr

/-- `run_cmd` (lines 9-11 of `build.py`): calls `subprocess.run(cmd,
stdout=None, stderr=None)` — streams inherited, output not captured — binds
the returned `CompletedProcess` to a variable it never reads, and returns.
The exit code is discarded (`Except.ok ()` whatever the code); an exception
from `subprocess.run` propagates, as the function has no `try`/`except`. -/
def runCmd (outcome : ExecOutcome) : Except Unit Unit :=
  match outcome with
  | ExecOutcome.exited _ => Except.ok ()
  | ExecOutcome.notFound => Except.error ()

/-- Observable result of one run of the script: the argument vectors passed
to `subprocess.run`, in order, and whether the run was aborted by an
uncaught exception. -/
structure RunResult where
  invocations : List (List String)
  aborted : Bool
deriving DecidableEq, Repr

/-- Issue a list of commands sequentially through `run_cmd` under the
environment `exec`: each command blocks until its outcome is known; an
uncaught `FileNotFoundError` aborts the run, dropping every later command. -/
def issueAll (exec : List String → ExecOutcome) : List (List String) → RunResult
  | [] => ⟨[], false⟩
  | c :: cs =>
    match runCmd (exec c) with
    | Except.error _ => ⟨[c], true⟩
    | Except.ok _ =>
      ⟨c :: (issueAll exec cs).invocations, (issueAll exec cs).aborted⟩

/-- `shader_name` (line 36 of `build.py`):
`os.path.join("shaders", "bin", ".".join(items[0:2]) + ".spv")`, where
`items = entry.split(".")`.  Python's `".".join` is `String.intercalate "."`
and the ternary `os.path.join` is the binary one iterated left to right. -/
def shader_name (entry : String) : String :=
  pathJoin (pathJoin "shaders" "bin")
    (String.intercalate "." ((pySplitDot entry).take 2) ++ ".spv")

/-- One iteration of the shader loop (lines 27-39 of `build.py`): `none`
when the entry is skipped (`"." not in entry`, or `len(items) != 3`),
otherwise the compiler command
`["glslangValidator", "-V", os.path.join("shaders", entry), "-o", shader_name]`. -/
def compileCmdOf (entry : String) : Option (List String) :=
  if '.' ∉ entry.data then none
  else if (pySplitDot entry).length ≠ 3 then none
  else some ["glslangValidator", "-V", pathJoin "shaders" entry, "-o", shader_name entry]

/-- The compiler invocations produced by the shader loop, in directory
listing order (`content` is the single `os.listdir("shaders")` result,
line 7 of `build.py`). -/
def shaderCmds (content : List String) : List (List String) :=
  content.filterMap compileCmdOf

/-- The runner command (lines 41-46 of `build.py`): `["odin", "run",
"spark"]` extended with `["-o:speed"]` when `len(sys.argv) > 1 and
sys.argv[1] == "release"`, and with `["-o:none", "-debug"]` otherwise. -/
def runnerCmd (argv : List String) : List String :=
  if argv.length > 1 ∧ argv[1]? = some "release" then
    ["odin", "run", "spark"] ++ ["-o:speed"]
  else
    ["odin", "run", "spark"] ++ ["-o:none", "-debug"]

/-- The full sequence of commands the script hands to `subprocess.run`, as a
pure function of the directory listing and `sys.argv`: all shader compiler
commands, in listing order, then the single runner command. -/
def driverCmds (content argv : List String) : List (List String) :=
  shaderCmds content ++ [runnerCmd argv]

/-- One run of `build.py` under environment `exec`, given the directory
listing `content` and `sys.argv` as `argv`: the commands of `driverCmds`
are issued sequentially, stopping early only if `subprocess.run` raises. -/
def runScript (exec : List String → ExecOutcome) (content argv : List String) :
    RunResult :=
  issueAll exec (driverCmds content argv)

/-- The driver process's own exit code: the script never calls `sys.exit`
and never inspects a child's exit code, so the interpreter exits with `0`
on normal completion, and with `1` when an uncaught exception (a missing
executable) terminates it. -/
def driverExitCode (exec : List String → ExecOutcome)
    (content argv : List String) : Int :=
  if (runScript exec content argv).aborted then 1 else 0

/-- Environment in which no external executable exists: every
`subprocess.run` call raises `FileNotFoundError`. -/
def execMissing : List String → ExecOutcome := fun _ => ExecOutcome.notFound

/-- Environment in which every external process terminates with exit code 7. -/
def execSeven : List String → ExecOutcome := fun _ => ExecOutcome.exited 7

/-! ## Helper lemmas -/

/-- When the separator does not occur, Python's `split` returns the whole
string as the single segment. -/
lemma splitOnChar_of_not_mem (sep : Char) (l : List Char) (h : sep ∉ l) :
    splitOnChar sep l = [l] := by
  induction l with
  | nil => rfl
  | cons c cs ih =>
    rw [List.mem_cons, not_or] at h
    rw [splitOnChar, if_neg (Ne.symm h.1), ih h.2]

/-- An entry that splits into three dot-separated segments contains a dot. -/
lemma mem_dot_of_split_three (entry n s x : String)
    (h : pySplitDot entry = [n, s, x]) : '.' ∈ entry.data := by
  by_contra hne
  rw [pySplitDot, splitOnChar_of_not_mem '.' entry.data hne] at h
  have hlen := congrArg List.length h
  simp at hlen

/-- When every external command terminates with an exit code (of any value),
the whole command list is issued in order and the run is not aborted. -/
lemma issueAll_of_codes (f : List String → Int) (cs : List (List String)) :
    issueAll (fun c => ExecOutcome.exited (f c)) cs = ⟨cs, false⟩ := by
  induction cs with
  | nil => rfl
  | cons c cs ih => simp [issueAll, runCmd, ih]

/-- The compiler command produced for an entry splitting into segments
`[n, s, x]`, with the output path in explicit form.  The side condition on
`n` records that directory entries are base names: they do not start with a
path separator, so `os.path.join` concatenates. -/
lemma compileCmdOf_eq_of_split (entry n s x : String)
    (hsplit : pySplitDot entry = [n, s, x])
    (hn : n.data.head? ≠ some '/') :
    compileCmdOf entry =
      some ["glslangValidator", "-V", pathJoin "shaders" entry,
            "-o", "shaders/bin/" ++ (n ++ "." ++ s ++ ".spv")] := by
  have hmem : '.' ∈ entry.data := mem_dot_of_split_three entry n s x hsplit
  have hlen : (pySplitDot entry).length = 3 := by rw [hsplit]; rfl
  have hslash : ¬ ((n ++ "." ++ s ++ ".spv").data.head? = some '/') := by
    cases hd : n.data with
    | nil =>
      simp [String.data_append, hd, show (".":String).data = ['.'] from rfl]
    | cons a t =>
      rw [hd] at hn
      simp only [List.head?_cons, ne_eq, Option.some.injEq] at hn
      simp [String.data_append, hd, hn]
  have hname : shader_name entry = "shaders/bin/" ++ (n ++ "." ++ s ++ ".spv") := by
    rw [shader_name, hsplit]
    show pathJoin (pathJoin "shaders" "bin")
        (String.intercalate "." [n, s] ++ ".spv") = _
    rw [show String.intercalate "." [n, s] = n ++ "." ++ s from rfl,
      show pathJoin "shaders" "bin" = "shaders/bin" from rfl,
      pathJoin, if_neg hslash, if_neg (by decide)]
    rfl
  rw [compileCmdOf, if_neg (not_not_intro hmem), if_neg (not_not_intro hlen), hname]

/-! ## The claims -/

/-- C1: for every entry in the shader directory listing, the driver invokes
the shader compiler for that entry if and only if the entry's name contains
a dot and splitting it on dots yields exactly three segments; an entry
failing the filter is skipped silently: no compiler invocation is produced
for it and processing of the remaining entries is unaffected. -/
theorem compile_invoked_iff (entry : String) (rest : List String) :
    ((∃ cmd, compileCmdOf entry = some cmd) ↔
      ('.' ∈ entry.data ∧ (pySplitDot entry).length = 3))
    ∧ (¬ ('.' ∈ entry.data ∧ (pySplitDot entry).length = 3) →
      shaderCmds (entry :: rest) = shaderCmds rest) := by
  have hnone : ¬ ('.' ∈ entry.data ∧ (pySplitDot entry).length = 3) →
      compileCmdOf entry = none := by
    intro h
    by_cases h1 : '.' ∈ entry.data
    · by_cases h2 : (pySplitDot entry).length = 3
      · exact absurd ⟨h1, h2⟩ h
      · simp [compileCmdOf, h1, h2]
    · simp [compileCmdOf, h1]
  constructor
  · constructor
    · rintro ⟨cmd, hcmd⟩
      by_contra h
      rw [hnone h] at hcmd
      exact Option.noConfusion hcmd
    · rintro ⟨h1, h2⟩
      exact ⟨["glslangValidator", "-V", pathJoin "shaders" entry,
        "-o", shader_name entry], by simp [compileCmdOf, h1, h2]⟩
  · intro h
    simp [shaderCmds, List.filterMap_cons, hnone h]

theorem compile_invoked_iff_witness :
    shaderCmds ["readme.txt"] = shaderCmds [] :=
  (compile_invoked_iff "readme.txt" []).2 (by decide)

/-- C2: for every eligible entry whose name splits into exactly three
dot-separated segments `<n>.<s>.<x>`, the output path passed to the compiler
is `shaders/bin/<n>.<s>.spv`: the first two segments are preserved, joined
by a dot, and the extension segment is replaced by the fixed suffix `.spv`.
The hypothesis on `n` records that `os.listdir` entries are base names and
never start with a path separator. -/
theorem output_path_spec (entry n s x : String)
    (hsplit : pySplitDot entry = [n, s, x])
    (hn : n.data.head? ≠ some '/') :
    compileCmdOf entry =
      some ["glslangValidator", "-V", pathJoin "shaders" entry,
            "-o", "shaders/bin/" ++ (n ++ "." ++ s ++ ".spv")] :=
  compileCmdOf_eq_of_split entry n s x hsplit hn

theorem output_path_spec_witness :
    compileCmdOf "tri.vert.glsl" =
      some ["glslangValidator", "-V", pathJoin "shaders" "tri.vert.glsl",
            "-o", "shaders/bin/" ++ ("tri" ++ "." ++ "vert" ++ ".spv")] :=
  output_path_spec "tri.vert.glsl" "tri" "vert" "glsl" (by decide) (by decide)

/-- C3: the flag set appended to the runner command is determined solely by
`sys.argv[1]`: the optimized flags are chosen exactly when it exists and
equals `"release"`; any other value, or its absence, yields the debug
flags; arguments beyond the first have no effect. -/
theorem mode_from_argv (argv argv' : List String) :
    (runnerCmd argv = ["odin", "run", "spark", "-o:speed"]
      ↔ argv[1]? = some "release")
    ∧ (argv[1]? ≠ some "release" →
        runnerCmd argv = ["odin", "run", "spark", "-o:none", "-debug"])
    ∧ (argv[1]? = argv'[1]? → runnerCmd argv = runnerCmd argv') := by
  have hrel : ∀ a : List String, a[1]? = some "release" →
      runnerCmd a = ["odin", "run", "spark", "-o:speed"] := by
    intro a ha
    have hlen : 1 < a.length := by
      rcases List.getElem?_eq_some.1 ha with ⟨h, -⟩
      exact h
    rw [runnerCmd, if_pos ⟨hlen, ha⟩]
    rfl
  have hdbg : ∀ a : List String, a[1]? ≠ some "release" →
      runnerCmd a = ["odin", "run", "spark", "-o:none", "-debug"] := by
    intro a ha
    rw [runnerCmd, if_neg (fun h => ha h.2)]
    rfl
  refine ⟨⟨?_, hrel argv⟩, hdbg argv, ?_⟩
  · intro h
    by_contra hne
    rw [hdbg argv hne] at h
    exact absurd h (by decide)
  · intro heq
    by_cases hc : argv[1]? = some "release"
    · rw [hrel argv hc, hrel argv' (heq ▸ hc)]
    · rw [hdbg argv hc, hdbg argv' (heq ▸ hc)]

theorem mode_from_argv_witness :
    runnerCmd ["build.py", "release"] = ["odin", "run", "spark", "-o:speed"]
    ∧ runnerCmd ["build.py", "debug"]
        = ["odin", "run", "spark", "-o:none", "-debug"]
    ∧ runnerCmd ["build.py", "release"]
        = runnerCmd ["build.py", "release", "extra"] :=
  ⟨(mode_from_argv ["build.py", "release"] []).1.mpr (by decide),
   (mode_from_argv ["build.py", "debug"] []).2.1 (by decide),
   (mode_from_argv ["build.py", "release"] ["build.py", "release", "extra"]).2.2
      (by decide)⟩

/-- C10: eligibility does not require segments to be non-empty: an entry
splitting into exactly three segments of which one or more are empty (a
leading dot as in `.vert.glsl`, or a trailing dot as in `a.b.`) is still
compiled, and the output path is built from the first two segments with any
empty segment preserved. -/
theorem empty_segments_still_compiled (entry n s x : String)
    (hsplit : pySplitDot entry = [n, s, x])
    (_hempty : n = "" ∨ s = "" ∨ x = "")
    (hn : n.data.head? ≠ some '/') :
    (∃ cmd, compileCmdOf entry = some cmd)
    ∧ compileCmdOf entry =
        some ["glslangValidator", "-V", pathJoin "shaders" entry,
              "-o", "shaders/bin/" ++ (n ++ "." ++ s ++ ".spv")] := by
  have h := compileCmdOf_eq_of_split entry n s x hsplit hn
  exact ⟨⟨_, h⟩, h⟩

theorem empty_segments_still_compiled_witness :
    compileCmdOf ".vert.glsl" =
      some ["glslangValidator", "-V", pathJoin "shaders" ".vert.glsl",
            "-o", "shaders/bin/" ++ ("" ++ "." ++ "vert" ++ ".spv")]
    ∧ compileCmdOf "a.b." =
      some ["glslangValidator", "-V", pathJoin "shaders" "a.b.",
            "-o", "shaders/bin/" ++ ("a" ++ "." ++ "b" ++ ".spv")] :=
  ⟨(empty_segments_still_compiled ".vert.glsl" "" "vert" "glsl" (by decide)
      (Or.inl rfl) (by decide)).2,
   (empty_segments_still_compiled "a.b." "a" "b" "" (by decide)
      (Or.inr (Or.inr rfl)) (by decide)).2⟩

/-- C4: in every run in which the external tools exist (each invocation
terminates with some exit code, of any value), the sequence of external
invocations is: one compiler invocation per eligible entry, sequentially in
listing order, followed by exactly one runner invocation after every shader
has been processed, regardless of the individual exit codes; the whole
sequence is a function of the single directory listing taken at the start. -/
theorem sequential_trace (f : List String → Int) (content argv : List String) :
    (runScript (fun c => ExecOutcome.exited (f c)) content argv).invocations
      = shaderCmds content ++ [runnerCmd argv]
    ∧ (runScript (fun c => ExecOutcome.exited (f c)) content argv).aborted
      = false := by
  have h := issueAll_of_codes f (driverCmds content argv)
  exact ⟨by rw [runScript, h]; rfl, by rw [runScript, h]⟩

/-- C5 (amended): a non-zero exit code of an external tool is not detected:
the driver does not abort and proceeds through every shader to the run step
whatever the exit codes are.  (A missing tool, by contrast, aborts the
driver: see the counterexample below.) -/
theorem nonzero_exit_swallowed (f : List String → Int)
    (content argv : List String) :
    (runScript (fun c => ExecOutcome.exited (f c)) content argv).aborted = false
    ∧ runnerCmd argv
      ∈ (runScript (fun c => ExecOutcome.exited (f c)) content argv).invocations := by
  have h := issueAll_of_codes f (driverCmds content argv)
  refine ⟨by rw [runScript, h], ?_⟩
  rw [runScript, h]
  exact List.mem_append_right _ (List.mem_singleton_self _)

/-- C5 (counterexample to the claim as stated): with the compiler executable
missing, `subprocess.run` raises an uncaught `FileNotFoundError` on the
first shader of `["tri.vert.glsl", "tri.frag.glsl"]`: the run aborts, the
second shader is never compiled and the runner is never invoked, contrary
to "a missing tool is not detected ... proceeds to the next shader and
eventually to the run step regardless". -/
theorem missing_tool_aborts :
    (runScript execMissing ["tri.vert.glsl", "tri.frag.glsl"]
        ["build.py"]).aborted = true
    ∧ (runScript execMissing ["tri.vert.glsl", "tri.frag.glsl"]
        ["build.py"]).invocations
      = [["glslangValidator", "-V", "shaders/tri.vert.glsl",
          "-o", "shaders/bin/tri.vert.spv"]]
    ∧ runnerCmd ["build.py"]
      ∉ (runScript execMissing ["tri.vert.glsl", "tri.frag.glsl"]
          ["build.py"]).invocations := by
  decide

/-- C6 (amended): the driver's exit code is not explicitly managed and
carries no information about the children: whenever every external
invocation terminates — with whatever exit codes — the interpreter finishes
the script normally and exits with `0`; in particular the exit code gives
no guarantee of reflecting compilation failures. -/
theorem exit_code_constant_zero (f : List String → Int)
    (content argv : List String) :
    driverExitCode (fun c => ExecOutcome.exited (f c)) content argv = 0 := by
  have h := issueAll_of_codes f (driverCmds content argv)
  rw [driverExitCode, runScript, h]
  rfl

/-- C6 (counterexample to the claim as stated): the driver's exit code does
not inherit what the last external invocation (the runner) produces: in a
run where every child, the runner included, exits with code `7`, the run
completes normally and the driver exits with `0`, not `7`. -/
theorem exit_code_not_inherited :
    execSeven (runnerCmd ["build.py"]) = ExecOutcome.exited 7
    ∧ (runScript execSeven ["tri.vert.glsl"] ["build.py"]).aborted = false
    ∧ driverExitCode execSeven ["tri.vert.glsl"] ["build.py"] = 0
    ∧ driverExitCode execSeven ["tri.vert.glsl"] ["build.py"] ≠ 7 := by
  decide

/-- C7: every compiler invocation has the exact argument shape
`glslangValidator -V <input> -o <output>` with the input the shader
directory path joined with the entry name and the output the derived
`shader_name`; and the driver never inspects an exit status: runs under any
two exit-code assignments are indistinguishable. -/
theorem compiler_cmd_shape (entry : String)
    (hdot : '.' ∈ entry.data) (h3 : (pySplitDot entry).length = 3)
    (f g : List String → Int) (content argv : List String) :
    compileCmdOf entry =
      some ["glslangValidator", "-V", pathJoin "shaders" entry,
            "-o", shader_name entry]
    ∧ runScript (fun c => ExecOutcome.exited (f c)) content argv
      = runScript (fun c => ExecOutcome.exited (g c)) content argv := by
  refine ⟨by simp [compileCmdOf, hdot, h3], ?_⟩
  rw [runScript, runScript, issueAll_of_codes f, issueAll_of_codes g]

theorem compiler_cmd_shape_witness :
    compileCmdOf "tri.vert.glsl" =
      some ["glslangValidator", "-V", pathJoin "shaders" "tri.vert.glsl",
            "-o", shader_name "tri.vert.glsl"]
    ∧ runScript (fun _ => ExecOutcome.exited 0) ["tri.vert.glsl"] ["build.py"]
      = runScript (fun _ => ExecOutcome.exited 1) ["tri.vert.glsl"]
          ["build.py"] :=
  compiler_cmd_shape "tri.vert.glsl" (by decide) (by decide)
    (fun _ => 0) (fun _ => 1) ["tri.vert.glsl"] ["build.py"]

/-- C8: when the shader directory listing is empty, zero compiler
invocations are issued and the runner is still invoked exactly once; with
no mode argument supplied, that single invocation carries the debug flags. -/
theorem empty_listing_runner_only (argv : List String)
    (f : List String → Int) (h : argv[1]? = none) :
    (runScript (fun c => ExecOutcome.exited (f c)) [] argv).invocations
      = [["odin", "run", "spark", "-o:none", "-debug"]] := by
  have hrc : runnerCmd argv = ["odin", "run", "spark", "-o:none", "-debug"] := by
    have hc : ¬ (argv.length > 1 ∧ argv[1]? = some "release") := by
      rintro ⟨-, h2⟩
      rw [h] at h2
      exact Option.noConfusion h2
    rw [runnerCmd, if_neg hc]
    rfl
  have hi := issueAll_of_codes f (driverCmds [] argv)
  rw [runScript, hi]
  show driverCmds [] argv = _
  rw [driverCmds, hrc]
  rfl

theorem empty_listing_runner_only_witness :
    (runScript (fun _ => ExecOutcome.exited 0) [] ["build.py"]).invocations
      = [["odin", "run", "spark", "-o:none", "-debug"]] :=
  empty_listing_runner_only ["build.py"] (fun _ => 0) (by decide)

/-- C9: the invocation trace is a pure function of the inputs: under any
two exit-code assignments (two runs with the same directory listing and the
same command line), the full command sequences — compiler invocations and
the final runner invocation — are identical, hence so are their multisets. -/
theorem deterministic_invocations (f g : List String → Int)
    (content argv : List String) :
    (runScript (fun c => ExecOutcome.exited (f c)) content argv).invocations
      = driverCmds content argv
    ∧ (runScript (fun c => ExecOutcome.exited (f c)) content argv).invocations
      = (runScript (fun c => ExecOutcome.exited (g c)) content argv).invocations := by
  have hf := issueAll_of_codes f (driverCmds content argv)
  have hg := issueAll_of_codes g (driverCmds content argv)
  exact ⟨by rw [runScript, hf], by rw [runScript, runScript, hf, hg]⟩
